import Mathlib

/-!
Verification of the GitHub org-membership utilities
(`list_github_users.py`, `add_users_to_org.py`).

The HTTP layer is abstracted as a function from request URL (or login) to a
response; everything else is translated directly from the Python source:
the paginated fetcher, the member/collaborator merger with its exclusion
filter, the response classifiers of the two mutators, and the two
interactive drivers (modelled as functions from the list of operator input
lines to the list of observable events).
-/

set_option autoImplicit false

/-- An HTTP response as the scripts observe it: the status code, the two JSON
fields the add tool reads from the body (`data.get("state")`,
`data.get("role")`, absent keys giving `none`), and the raw body text. -/
structure HttpResponse where
  status : Nat
  state : Option String
  role : Option String
  text : String
deriving DecidableEq

/-- A user entry as built by `fetch_org_users_and_collaborators`
(`list_github_users.py` lines 82-91): a dict with a `login` and a `type`
string (`"OrgMember"` or `"OutsideCollaborator"`). -/
structure OrgUser where
  login : String
  type : String
deriving DecidableEq

/-- The deduplication key used at line 96: the `(login, type)` pair. -/
def userKey (u : OrgUser) : String × String := (u.login, u.type)

/-- The hard-coded `EXCLUDED_LOGINS` set (`list_github_users.py` lines 22-34). -/
def EXCLUDED_LOGINS : List String :=
  ["amarentis", "dwhitehead95", "goldForce", "matthewcmorgan", "mbarbour-ns",
   "nbaker-stelligent", "rjackson-dev-ops", "stelligent-joao",
   "stelligent-releasebot", "stelligent-topograph-crawlerbot",
   "zacherytcox-stelligent"]

/-- The `OrderedDict` dedup loop of lines 94-100: walk the combined list,
keeping an entry exactly when its key has not been seen before.  `seen` is
the set of keys already inserted; the output order is insertion order,
i.e. first-occurrence order. -/
def combineDedupe : List OrgUser → List (String × String) → List OrgUser
  | [], _ => []
  | e :: rest, seen =>
    if userKey e ∈ seen then combineDedupe rest seen
    else e :: combineDedupe rest (userKey e :: seen)

/-- The member list comprehension of lines 82-85: each yielded login tagged
`"OrgMember"`. -/
def membersAsUsers (members : List String) : List OrgUser :=
  members.map fun l => { login := l, type := "OrgMember" }

/-- The outside-collaborator list comprehension of lines 88-91: each yielded
login tagged `"OutsideCollaborator"`. -/
def outsideAsUsers (outside : List String) : List OrgUser :=
  outside.map fun l => { login := l, type := "OutsideCollaborator" }

/-- Lines 94-100 of `list_github_users.py`: `members + outside` deduplicated
by `(login, type)` in first-seen order. -/
def mergedUsers (members outside : List String) : List OrgUser :=
  combineDedupe (membersAsUsers members ++ outsideAsUsers outside) []

/-- `fetch_org_users_and_collaborators` (lines 80-105), with the paginated
API calls abstracted as the two lists of logins they yield: merge, dedupe,
then drop entries whose login is in `EXCLUDED_LOGINS` (line 103). -/
def fetch_org_users_and_collaborators (members outside : List String) :
    List OrgUser :=
  (mergedUsers members outside).filter fun u => decide (u.login ∉ EXCLUDED_LOGINS)

/-- Reference formulation of first-occurrence deduplication, following the
spec's words ("each key kept only at its first occurrence"): keep the head,
then recurse on the tail with all later entries of the same key removed. -/
def keepFirstByKey : List OrgUser → List OrgUser
  | [] => []
  | e :: rest =>
    e :: keepFirstByKey (rest.filter fun x => decide (userKey x ≠ userKey e))
termination_by l => l.length
decreasing_by
  simp_wf
  exact Nat.lt_succ_of_le (List.length_filter_le _ _)

/-- Python's `str.strip()` with no argument: remove whitespace from both
ends of the string (used on every `input()` line in both drivers). -/
def pyStrip (s : String) : String :=
  ⟨((s.data.dropWhile Char.isWhitespace).reverse.dropWhile Char.isWhitespace).reverse⟩

/-- Python's `str.lower()`: lowercase every character. -/
def pyLower (s : String) : String :=
  ⟨s.data.map Char.toLower⟩

/-- The body of one page, as handled at lines 65-70 of
`list_github_users.py`: a JSON array (each element yielded individually) or
a single object (yielded as one item). -/
inductive PageBody (α : Type) where
  | list (items : List α)
  | single (item : α)
deriving DecidableEq

/-- One HTTP response to a page request: status code, JSON body, and the
optional `next` link relation from the `Link` header (`resp.links`). -/
structure Page (α : Type) where
  status : Nat
  body : PageBody α
  next : Option String
deriving DecidableEq

/-- The items yielded from one page body (lines 66-70). -/
def yieldOf {α : Type} : PageBody α → List α
  | .list items => items
  | .single item => [item]

/-- Result of running the fetcher: all items yielded in order, or a fatal
`sys.exit(1)` carrying the failing status code (with the items yielded from
earlier pages before the generator died), or fuel exhaustion (a modelling
artifact: the Python `while url:` loop has no fuel, but every claim below
concerns finitely many pages). -/
inductive FetchOutcome (α : Type) where
  | ok (items : List α)
  | fatalExit (status : Nat) (yieldedSoFar : List α)
  | outOfFuel (yieldedSoFar : List α)
deriving DecidableEq

/-- Prepend one page's items to whatever the rest of the fetch produced. -/
def appendYield {α : Type} (pageItems : List α) : FetchOutcome α → FetchOutcome α
  | .ok items => .ok (pageItems ++ items)
  | .fatalExit s ys => .fatalExit s (pageItems ++ ys)
  | .outOfFuel ys => .outOfFuel (pageItems ++ ys)

/-- `get_paginated` (`list_github_users.py` lines 46-77) over an abstract
server.  Each iteration of `while url:` issues one GET request, recorded as
a `(url, params)` pair — `params` is `some 100` for the initial
`{"per_page": 100}` and `none` after line 75 sets `params = None`.  A
status other than 200 prints and exits the process (lines 60-63); otherwise
the page's items are yielded and the `next` link, if present, is followed
with `params = None`. -/
def get_paginated {α : Type} (server : String → Page α) :
    Nat → String → Option Nat → List (String × Option Nat) × FetchOutcome α
  | 0, _, _ => ([], .outOfFuel [])
  | fuel + 1, url, params =>
    let resp := server url
    if resp.status ≠ 200 then
      ([(url, params)], .fatalExit resp.status [])
    else
      match resp.next with
      | none => ([(url, params)], .ok (yieldOf resp.body))
      | some nextUrl =>
        let r := get_paginated server fuel nextUrl none
        ((url, params) :: r.1, appendYield (yieldOf resp.body) r.2)

/-- The spec's notion of an HTTP success status (the 2xx class), stated in
the spec's own words to compare with what the code actually tests. -/
def specSuccessStatus (s : Nat) : Prop := 200 ≤ s ∧ s < 300

/-- Outcome classification of `add_user_to_org`
(`add_users_to_org.py` lines 34-75), with the HTTP exchange abstracted as
the response it produced: 200/201 report the body's membership `state` and
`role`; 404 and 403 get their own diagnostics; anything else is reported as
unexpected together with status and body.  The function only prints; it
never raises or exits. -/
inductive AddOutcome where
  | Success (state role : Option String)
  | NotFoundOrForbidden
  | Forbidden
  | Unexpected (status : Nat) (body : String)
deriving DecidableEq

def add_user_to_org (resp : HttpResponse) : AddOutcome :=
  if resp.status = 200 ∨ resp.status = 201 then .Success resp.state resp.role
  else if resp.status = 404 then .NotFoundOrForbidden
  else if resp.status = 403 then .Forbidden
  else .Unexpected resp.status resp.text

/-- Observable events of the add tool's driver loop
(`add_users_to_org.py` lines 90-103). -/
inductive AddEvent where
  | apiCall (login : String) (outcome : AddOutcome)
  | skipped (login : String)
  | exited
deriving DecidableEq

/-- The add tool's `main` loop (lines 90-103), with the operator's input
lines supplied as a list (consumed one `input()` at a time; an exhausted
list ends the model) and the remote API as a function from the login in the
PUT URL to the response.  Line 91 strips the login; line 92 exits on an
empty line or on (lowercased) `"q"`; line 97 strips and lowercases the
confirmation; anything but `"y"` skips, `"y"` calls `add_user_to_org`, and
either way the loop continues with the next login prompt. -/
def add_main (server : String → HttpResponse) : List String → List AddEvent
  | [] => []
  | raw :: rest =>
    let login := pyStrip raw
    if login = "" ∨ pyLower login = "q" then [.exited]
    else
      match rest with
      | [] => []
      | confirm :: rest2 =>
        if pyLower (pyStrip confirm) = "y" then
          .apiCall login (add_user_to_org (server login)) :: add_main server rest2
        else
          .skipped login :: add_main server rest2

/-- The member-removal endpoint path (`list_github_users.py` line 113). -/
def memberRemovalPath (org login : String) : String :=
  "/orgs/" ++ org ++ "/members/" ++ login

/-- The outside-collaborator-removal endpoint path (line 115). -/
def collaboratorRemovalPath (org login : String) : String :=
  "/orgs/" ++ org ++ "/outside_collaborators/" ++ login

/-- Outcome of one `remove_user_from_org` call: success banner, failure
banner with status and body, or the local unknown-type skip of line 117. -/
inductive RemoveOutcome where
  | success
  | failure (status : Nat) (body : String)
  | skippedUnknown (utype : String)
deriving DecidableEq

/-- `remove_user_from_org` (`list_github_users.py` lines 108-135).  The
first component is the request the call issued (`none` when the
classification was unrecognized and the call returned at line 118 without
touching the network).  Status 204 or 202 is a success; anything else is a
failure reported with status and body.  The function never exits. -/
def remove_user_from_org (server : String → HttpResponse)
    (org login utype : String) : Option String × RemoveOutcome :=
  if utype = "OrgMember" then
    let path := memberRemovalPath org login
    let resp := server path
    (some path,
      if resp.status = 204 ∨ resp.status = 202 then .success
      else .failure resp.status resp.text)
  else if utype = "OutsideCollaborator" then
    let path := collaboratorRemovalPath org login
    let resp := server path
    (some path,
      if resp.status = 204 ∨ resp.status = 202 then .success
      else .failure resp.status resp.text)
  else
    (none, .skippedUnknown utype)

/-- Observable events of the list/delete tool's driver
(`list_github_users.py` lines 138-174).  A `removed` event records the full
`remove_user_from_org` result, so the request it issued (or `none`) is part
of the event. -/
inductive ListEvent where
  | msgNoUsers
  | removed (login utype : String) (call : Option String × RemoveOutcome)
  | skippedUser (login : String)
  | stoppedEarly (login : String)
  | doneMsg
deriving DecidableEq

/-- The per-user loop of lines 157-172: each processed entry consumes one
answer line (stripped, lowercased at line 162); `"q"` breaks immediately,
`"y"` calls `remove_user_from_org`, anything else skips, and after a remove
or a skip the loop continues with the next entry.  An exhausted answer list
ends the model. -/
def list_loop (server : String → HttpResponse) (org : String) :
    List OrgUser → List String → List ListEvent
  | [], _ => []
  | _ :: _, [] => []
  | u :: us, a :: rest =>
    let answer := pyLower (pyStrip a)
    if answer = "q" then [.stoppedEarly u.login]
    else if answer = "y" then
      .removed u.login u.type (remove_user_from_org server org u.login u.type) ::
        list_loop server org us rest
    else
      .skippedUser u.login :: list_loop server org us rest

/-- `main` of the list/delete tool after the fetch (lines 149-174): an empty
user list prints its message and returns at line 151 without entering the
loop; otherwise the loop runs and `"Done."` is printed afterwards. -/
def list_main (server : String → HttpResponse) (org : String)
    (users : List OrgUser) (answers : List String) : List ListEvent :=
  if users.isEmpty then [.msgNoUsers]
  else list_loop server org users answers ++ [.doneMsg]

theorem keepFirstByKey_nil : keepFirstByKey [] = [] := by
  rw [keepFirstByKey]

theorem keepFirstByKey_cons (e : OrgUser) (rest : List OrgUser) :
    keepFirstByKey (e :: rest) =
      e :: keepFirstByKey (rest.filter fun x => decide (userKey x ≠ userKey e)) := by
  rw [keepFirstByKey]

theorem combineDedupe_eq_keepFirstByKey (l : List OrgUser)
    (seen : List (String × String)) :
    combineDedupe l seen =
      keepFirstByKey (l.filter fun x => decide (userKey x ∉ seen)) := by
  induction l generalizing seen with
  | nil => simp [combineDedupe, keepFirstByKey_nil]
  | cons e rest ih =>
    by_cases h : userKey e ∈ seen
    · have hpe : (decide (userKey e ∉ seen)) = false := by simpa using h
      rw [combineDedupe, if_pos h, List.filter_cons]
      simp only [hpe, Bool.false_eq_true, if_false]
      exact ih seen
    · have hpe : (decide (userKey e ∉ seen)) = true := by simpa using h
      have hfilter : (rest.filter fun x => decide (userKey x ∉ seen)).filter
            (fun x => decide (userKey x ≠ userKey e)) =
          rest.filter fun x => decide (userKey x ∉ userKey e :: seen) := by
        rw [List.filter_filter]
        apply List.filter_congr
        intro x _
        by_cases hx : userKey x = userKey e <;> by_cases hs : userKey x ∈ seen <;>
          simp [hx, hs]
      rw [combineDedupe, if_neg h, List.filter_cons]
      simp only [hpe, if_true]
      rw [keepFirstByKey_cons, hfilter, ih (userKey e :: seen)]

theorem mergedUsers_eq_keepFirstByKey (members outside : List String) :
    mergedUsers members outside =
      keepFirstByKey (membersAsUsers members ++ outsideAsUsers outside) := by
  rw [mergedUsers, combineDedupe_eq_keepFirstByKey]
  congr 1
  simp

theorem keepFirstByKey_sublist (l : List OrgUser) : (keepFirstByKey l).Sublist l := by
  induction l using keepFirstByKey.induct with
  | case1 => simp [keepFirstByKey_nil]
  | case2 e rest ih =>
    rw [keepFirstByKey_cons]
    exact List.Sublist.cons₂ e (ih.trans (List.filter_sublist rest))

theorem keepFirstByKey_nodup_keys (l : List OrgUser) :
    ((keepFirstByKey l).map userKey).Nodup := by
  induction l using keepFirstByKey.induct with
  | case1 => simp [keepFirstByKey_nil]
  | case2 e rest ih =>
    rw [keepFirstByKey_cons]
    rw [List.map_cons, List.nodup_cons]
    constructor
    · intro hmem
      rcases List.mem_map.mp hmem with ⟨x, hx, hkey⟩
      have hx' := (keepFirstByKey_sublist _).subset hx
      have := List.of_mem_filter hx'
      simp only [decide_eq_true_eq] at this
      exact this hkey
    · exact ih

theorem keepFirstByKey_keys_complete (l : List OrgUser) :
    ∀ u ∈ l, userKey u ∈ (keepFirstByKey l).map userKey := by
  induction l using keepFirstByKey.induct with
  | case1 => intro u hu; simp at hu
  | case2 e rest ih =>
    intro u hu
    rw [keepFirstByKey_cons, List.map_cons]
    rcases List.mem_cons.mp hu with rfl | hu'
    · exact List.mem_cons_self _ _
    · by_cases hk : userKey u = userKey e
      · rw [hk]; exact List.mem_cons_self _ _
      · refine List.mem_cons_of_mem _ (ih u ?_)
        exact List.mem_filter.mpr ⟨hu', by simpa using hk⟩


/-- C1: for every pair of input sequences (members, then outside
collaborators), the merged output contains no duplicate `(login, type)`
pair and preserves first-seen order — it is exactly the first-occurrence
deduplication of the members (in order) followed by the outside
collaborators (in order), hence an order-preserving sublist of that
concatenation in which every input key is represented. -/
theorem merger_dedup_preserves_first_seen (members outside : List String) :
    ((mergedUsers members outside).map userKey).Nodup ∧
    (mergedUsers members outside).Sublist
      (membersAsUsers members ++ outsideAsUsers outside) ∧
    mergedUsers members outside =
      keepFirstByKey (membersAsUsers members ++ outsideAsUsers outside) ∧
    ∀ u, u ∈ membersAsUsers members ++ outsideAsUsers outside →
      userKey u ∈ (mergedUsers members outside).map userKey := by
  have h := mergedUsers_eq_keepFirstByKey members outside
  refine ⟨?_, ?_, h, ?_⟩
  · rw [h]; exact keepFirstByKey_nodup_keys _
  · rw [h]; exact keepFirstByKey_sublist _
  · intro u hu
    rw [h]
    exact keepFirstByKey_keys_complete _ u hu

/-- Witness for C1 at a concrete input with duplicates in both sequences. -/
theorem merger_dedup_witness :
    ((mergedUsers ["alice", "bob", "alice"] ["alice", "carol"]).map userKey).Nodup ∧
    (⟨"carol", "OutsideCollaborator"⟩ : OrgUser) ∈
      membersAsUsers ["alice", "bob", "alice"] ++ outsideAsUsers ["alice", "carol"] ∧
    userKey ⟨"carol", "OutsideCollaborator"⟩ ∈
      (mergedUsers ["alice", "bob", "alice"] ["alice", "carol"]).map userKey := by
  refine ⟨(merger_dedup_preserves_first_seen ["alice", "bob", "alice"]
      ["alice", "carol"]).1, by decide,
    (merger_dedup_preserves_first_seen ["alice", "bob", "alice"]
      ["alice", "carol"]).2.2.2 ⟨"carol", "OutsideCollaborator"⟩ (by decide)⟩

/-- C7: a login in the exclusion set never appears in the final output,
whatever its type; and the output is exactly the first-occurrence
deduplication of the combined input with the exclusion filter (matching by
login only) applied afterwards. -/
theorem exclusion_by_login_after_dedup (members outside : List String)
    (login : String) (hlogin : login ∈ EXCLUDED_LOGINS) :
    (∀ u, u ∈ fetch_org_users_and_collaborators members outside →
      u.login ≠ login) ∧
    fetch_org_users_and_collaborators members outside =
      (keepFirstByKey (membersAsUsers members ++ outsideAsUsers outside)).filter
        fun u => decide (u.login ∉ EXCLUDED_LOGINS) := by
  constructor
  · intro u hu
    rw [fetch_org_users_and_collaborators] at hu
    have hkeep := List.of_mem_filter hu
    simp only [decide_eq_true_eq] at hkeep
    intro heq
    exact hkeep (heq ▸ hlogin)
  · rw [fetch_org_users_and_collaborators, mergedUsers_eq_keepFirstByKey]

/-- Witness for C7: `"rjackson-dev-ops"` is excluded, the concrete output
still contains the non-excluded `"alice"`, and that entry's login differs
from the excluded one. -/
theorem exclusion_witness :
    "rjackson-dev-ops" ∈ EXCLUDED_LOGINS ∧
    (⟨"alice", "OrgMember"⟩ : OrgUser) ∈
      fetch_org_users_and_collaborators ["rjackson-dev-ops", "alice"]
        ["rjackson-dev-ops"] ∧
    OrgUser.login ⟨"alice", "OrgMember"⟩ ≠ "rjackson-dev-ops" := by
  refine ⟨by decide, by decide,
    (exclusion_by_login_after_dedup ["rjackson-dev-ops", "alice"]
      ["rjackson-dev-ops"] "rjackson-dev-ops" (by decide)).1
      ⟨"alice", "OrgMember"⟩ (by decide)⟩

/-- C2: against a server that returns page 1 (status 200, a JSON array,
with a next link) and then page 2 (status 200, a JSON array, no next link),
the fetcher yields every item of page 1 followed by every item of page 2
exactly once, and issues exactly two requests: the first to the start URL
with `per_page = 100`, the second to the server-supplied next URL with no
parameters of its own. -/
theorem fetcher_two_pages_two_requests (α : Type) (server : String → Page α)
    (u0 u1 : String) (p1 p2 : List α) (fuel : Nat)
    (h0 : server u0 = { status := 200, body := PageBody.list p1, next := some u1 })
    (h1 : server u1 = { status := 200, body := PageBody.list p2, next := none }) :
    get_paginated server (fuel + 2) u0 (some 100) =
      ([(u0, some 100), (u1, none)], FetchOutcome.ok (p1 ++ p2)) := by
  show get_paginated server ((fuel + 1) + 1) u0 (some 100) = _
  rw [get_paginated, h0]
  simp only [ne_eq, not_true_eq_false, if_false, ite_false, reduceIte]
  rw [get_paginated, h1]
  simp [yieldOf, appendYield]

/-- Witness for C2: a concrete two-page server with items `[1, 2]` then
`[3]`. -/
theorem fetcher_two_pages_witness :
    get_paginated
        (fun u => if u = "page1"
          then ({ status := 200, body := PageBody.list [1, 2],
                  next := some "page2" } : Page Nat)
          else { status := 200, body := PageBody.list [3], next := none })
        2 "page1" (some 100) =
      ([("page1", some 100), ("page2", none)], FetchOutcome.ok [1, 2, 3]) := by
  have h := fetcher_two_pages_two_requests Nat
    (fun u => if u = "page1"
      then ({ status := 200, body := PageBody.list [1, 2],
              next := some "page2" } : Page Nat)
      else { status := 200, body := PageBody.list [3], next := none })
    "page1" "page2" [1, 2] [3] 0 (by decide) (by decide)
  simpa using h

/-- C4 as stated is false: 204 lies in the HTTP success class, yet the
fetcher treats any status other than 200 as fatal, so a 204 page response
terminates the program instead of letting fetching continue. -/
theorem fetch_success_status_counterexample :
    specSuccessStatus 204 ∧
    get_paginated
        (fun _ => ({ status := 204, body := PageBody.list [],
                     next := none } : Page Nat))
        1 "u" (some 100) =
      ([("u", some 100)], FetchOutcome.fatalExit 204 []) := by
  exact ⟨⟨by decide, by decide⟩, by decide⟩

/-- C4 (amended): a page fetch terminates the entire program immediately
with a non-zero exit exactly when its status is not 200 — this includes
success-class statuses such as 201 or 204 — and on status 200 fetching
continues: the page's items are yielded and the next link, when present,
is followed. -/
theorem fetch_non_200_fatal (α : Type) (server : String → Page α)
    (uA uB uC uD : String) (params : Option Nat) (fuel : Nat)
    (hA : (server uA).status ≠ 200)
    (hB : (server uB).status = 200) (hBn : (server uB).next = some uC)
    (hD : (server uD).status = 200) (hDn : (server uD).next = none) :
    get_paginated server (fuel + 1) uA params =
      ([(uA, params)], FetchOutcome.fatalExit (server uA).status []) ∧
    get_paginated server (fuel + 1) uB params =
      ((uB, params) :: (get_paginated server fuel uC none).1,
        appendYield (yieldOf (server uB).body)
          (get_paginated server fuel uC none).2) ∧
    get_paginated server (fuel + 1) uD params =
      ([(uD, params)], FetchOutcome.ok (yieldOf (server uD).body)) := by
  refine ⟨?_, ?_, ?_⟩
  · rw [get_paginated]
    simp [hA]
  · rw [get_paginated]
    simp [hB, hBn]
  · rw [get_paginated]
    simp [hD, hDn]

/-- Witness for the amended C4: a concrete server where `"bad"` answers 500
(fatal on the spot), `"chain"` answers 200 with a next link (fetching
continues to `"last"`), and `"last"` answers 200 with no next link. -/
theorem fetch_non_200_fatal_witness :
    get_paginated
        (fun u => if u = "bad"
          then ({ status := 500, body := PageBody.list [], next := none } : Page Nat)
          else if u = "chain"
          then { status := 200, body := PageBody.list [7], next := some "last" }
          else { status := 200, body := PageBody.list [8], next := none })
        2 "bad" (some 100) = ([("bad", some 100)], FetchOutcome.fatalExit 500 []) ∧
    get_paginated
        (fun u => if u = "bad"
          then ({ status := 500, body := PageBody.list [], next := none } : Page Nat)
          else if u = "chain"
          then { status := 200, body := PageBody.list [7], next := some "last" }
          else { status := 200, body := PageBody.list [8], next := none })
        2 "chain" (some 100) =
      ([("chain", some 100), ("last", none)], FetchOutcome.ok [7, 8]) ∧
    get_paginated
        (fun u => if u = "bad"
          then ({ status := 500, body := PageBody.list [], next := none } : Page Nat)
          else if u = "chain"
          then { status := 200, body := PageBody.list [7], next := some "last" }
          else { status := 200, body := PageBody.list [8], next := none })
        2 "last" (some 100) = ([("last", some 100)], FetchOutcome.ok [8]) := by
  have h := fetch_non_200_fatal Nat
    (fun u => if u = "bad"
      then ({ status := 500, body := PageBody.list [], next := none } : Page Nat)
      else if u = "chain"
      then { status := 200, body := PageBody.list [7], next := some "last" }
      else { status := 200, body := PageBody.list [8], next := none })
    "bad" "chain" "last" "last" (some 100) 1
    (by decide) (by decide) (by decide) (by decide) (by decide)
  exact ⟨h.1.trans (by decide), h.2.1.trans (by decide), h.2.2.trans (by decide)⟩

/-- C3: the add mutator classifies the response exactly by status — 200/201
give Success with the returned state and role, 404 gives
NotFoundOrForbidden, 403 gives Forbidden, and anything else gives
Unexpected with status and body — and whatever the server answers, the
driver records the call and proceeds to process the remaining input as the
next login prompt. -/
theorem add_outcome_classification
    (r1 r2 r3 r4 : HttpResponse) (server : String → HttpResponse)
    (l c : String) (rest : List String)
    (h1 : r1.status = 200 ∨ r1.status = 201)
    (h2 : r2.status = 404) (h3 : r3.status = 403)
    (h4 : r4.status ≠ 200 ∧ r4.status ≠ 201 ∧ r4.status ≠ 404 ∧ r4.status ≠ 403)
    (hl1 : pyStrip l ≠ "") (hl2 : pyLower (pyStrip l) ≠ "q")
    (hc : pyLower (pyStrip c) = "y") :
    add_user_to_org r1 = AddOutcome.Success r1.state r1.role ∧
    add_user_to_org r2 = AddOutcome.NotFoundOrForbidden ∧
    add_user_to_org r3 = AddOutcome.Forbidden ∧
    add_user_to_org r4 = AddOutcome.Unexpected r4.status r4.text ∧
    add_main server (l :: c :: rest) =
      AddEvent.apiCall (pyStrip l) (add_user_to_org (server (pyStrip l))) ::
        add_main server rest := by
  obtain ⟨h4a, h4b, h4c, h4d⟩ := h4
  refine ⟨?_, ?_, ?_, ?_, ?_⟩
  · simp [add_user_to_org, h1]
  · simp [add_user_to_org, h2]
  · simp [add_user_to_org, h3]
  · simp [add_user_to_org, h4a, h4b, h4c, h4d]
  · simp [add_main, hl1, hl2, hc]

/-- Witness for C3: one response of each class, and the driver handling the
login `" alice "` confirmed with `"y"`. -/
theorem add_outcome_witness :
    add_user_to_org ⟨201, some "pending", some "member", ""⟩ =
      AddOutcome.Success (some "pending") (some "member") ∧
    add_user_to_org ⟨404, none, none, "nf"⟩ = AddOutcome.NotFoundOrForbidden ∧
    add_user_to_org ⟨403, none, none, "fb"⟩ = AddOutcome.Forbidden ∧
    add_user_to_org ⟨500, none, none, "boom"⟩ = AddOutcome.Unexpected 500 "boom" ∧
    add_main (fun _ => ⟨201, some "pending", some "member", ""⟩)
        [" alice ", "y"] =
      [AddEvent.apiCall "alice"
        (AddOutcome.Success (some "pending") (some "member"))] := by
  have h := add_outcome_classification
    ⟨201, some "pending", some "member", ""⟩ ⟨404, none, none, "nf"⟩
    ⟨403, none, none, "fb"⟩ ⟨500, none, none, "boom"⟩
    (fun _ => ⟨201, some "pending", some "member", ""⟩) " alice " "y" []
    (Or.inr rfl) rfl rfl ⟨by decide, by decide, by decide, by decide⟩
    (by decide) (by decide) (by decide)
  exact ⟨h.1, h.2.1, h.2.2.1, h.2.2.2.1, h.2.2.2.2.trans (by decide)⟩

/-- C5 is false as stated: the confirmation input `"Y"` is not exactly the
string `"y"`, yet the code strips and lowercases it first, so the mutation
is invoked rather than skipped. -/
theorem confirm_exact_y_counterexample :
    ("Y" : String) ≠ "y" ∧
    add_main (fun _ => ⟨200, some "active", some "member", ""⟩)
        ["alice", "Y"] =
      [AddEvent.apiCall "alice"
        (AddOutcome.Success (some "active") (some "member"))] := by
  exact ⟨by decide, by decide⟩

/-- C5 (amended): at the confirmation prompt, any input whose
whitespace-stripped, lowercased form is not `"y"` skips the mutation and
returns to the login prompt; any input normalizing to `"y"` (such as `"y"`,
`"Y"` or `" y "`) invokes the add mutator and then returns to the login
prompt. -/
theorem confirm_normalized_y (server : String → HttpResponse)
    (l c1 c2 : String) (rest1 rest2 : List String)
    (hl1 : pyStrip l ≠ "") (hl2 : pyLower (pyStrip l) ≠ "q")
    (hc1 : pyLower (pyStrip c1) ≠ "y") (hc2 : pyLower (pyStrip c2) = "y") :
    add_main server (l :: c1 :: rest1) =
      AddEvent.skipped (pyStrip l) :: add_main server rest1 ∧
    add_main server (l :: c2 :: rest2) =
      AddEvent.apiCall (pyStrip l) (add_user_to_org (server (pyStrip l))) ::
        add_main server rest2 := by
  constructor
  · simp [add_main, hl1, hl2, hc1]
  · simp [add_main, hl1, hl2, hc2]

/-- Witness for the amended C5: `"n"` skips, `" Y "` (not exactly `"y"`)
confirms. -/
theorem confirm_normalized_y_witness :
    add_main (fun _ => ⟨200, none, none, ""⟩) ["bob", "n"] =
      [AddEvent.skipped "bob"] ∧
    add_main (fun _ => ⟨200, none, none, ""⟩) ["bob", " Y "] =
      [AddEvent.apiCall "bob" (AddOutcome.Success none none)] := by
  have h := confirm_normalized_y (fun _ => ⟨200, none, none, ""⟩)
    "bob" "n" " Y " [] [] (by decide) (by decide) (by decide) (by decide)
  exact ⟨h.1.trans (by decide), h.2.trans (by decide)⟩

/-- C6: an unrecognized classification is a local error — no request is
issued; `"OrgMember"` routes to the member-removal path and
`"OutsideCollaborator"` to the outside-collaborator-removal path; the
response is Success exactly when its status is 204 or 202 and otherwise
Failure with status and body; and after a remove the list driver continues
with the next entry whatever the outcome was. -/
theorem remove_classification_and_routing
    (server sA sB : String → HttpResponse) (org login utype : String)
    (u : OrgUser) (us : List OrgUser) (a : String) (rest : List String)
    (hu1 : utype ≠ "OrgMember") (hu2 : utype ≠ "OutsideCollaborator")
    (hA1 : (sA (memberRemovalPath org login)).status = 204 ∨
      (sA (memberRemovalPath org login)).status = 202)
    (hA2 : (sA (collaboratorRemovalPath org login)).status = 204 ∨
      (sA (collaboratorRemovalPath org login)).status = 202)
    (hB1 : (sB (memberRemovalPath org login)).status ≠ 204 ∧
      (sB (memberRemovalPath org login)).status ≠ 202)
    (hB2 : (sB (collaboratorRemovalPath org login)).status ≠ 204 ∧
      (sB (collaboratorRemovalPath org login)).status ≠ 202)
    (ha : pyLower (pyStrip a) = "y") :
    remove_user_from_org server org login utype =
      (none, RemoveOutcome.skippedUnknown utype) ∧
    remove_user_from_org sA org login "OrgMember" =
      (some (memberRemovalPath org login), RemoveOutcome.success) ∧
    remove_user_from_org sA org login "OutsideCollaborator" =
      (some (collaboratorRemovalPath org login), RemoveOutcome.success) ∧
    remove_user_from_org sB org login "OrgMember" =
      (some (memberRemovalPath org login),
        RemoveOutcome.failure (sB (memberRemovalPath org login)).status
          (sB (memberRemovalPath org login)).text) ∧
    remove_user_from_org sB org login "OutsideCollaborator" =
      (some (collaboratorRemovalPath org login),
        RemoveOutcome.failure (sB (collaboratorRemovalPath org login)).status
          (sB (collaboratorRemovalPath org login)).text) ∧
    list_loop server org (u :: us) (a :: rest) =
      ListEvent.removed u.login u.type
          (remove_user_from_org server org u.login u.type) ::
        list_loop server org us rest := by
  refine ⟨?_, ?_, ?_, ?_, ?_, ?_⟩
  · simp [remove_user_from_org, hu1, hu2]
  · simp [remove_user_from_org, hA1]
  · simp [remove_user_from_org, hA2]
  · simp [remove_user_from_org, hB1.1, hB1.2]
  · simp [remove_user_from_org, hB2.1, hB2.2]
  · simp [list_loop, ha]

/-- Witness for C6: the unknown type `"Weird"` is skipped locally, a 204
server succeeds on both endpoints' paths, a 403 server fails with its
status and body, and the driver continues past a failed remove. -/
theorem remove_classification_witness :
    remove_user_from_org (fun _ => ⟨403, none, none, "denied"⟩)
        "acme" "dave" "Weird" = (none, RemoveOutcome.skippedUnknown "Weird") ∧
    remove_user_from_org (fun _ => ⟨204, none, none, ""⟩)
        "acme" "dave" "OrgMember" =
      (some "/orgs/acme/members/dave", RemoveOutcome.success) ∧
    remove_user_from_org (fun _ => ⟨403, none, none, "denied"⟩)
        "acme" "dave" "OutsideCollaborator" =
      (some "/orgs/acme/outside_collaborators/dave",
        RemoveOutcome.failure 403 "denied") ∧
    list_loop (fun _ => ⟨403, none, none, "denied"⟩) "acme"
        [⟨"dave", "OrgMember"⟩] ["y"] =
      [ListEvent.removed "dave" "OrgMember"
        (some "/orgs/acme/members/dave", RemoveOutcome.failure 403 "denied")] := by
  have h := remove_classification_and_routing
    (fun _ => ⟨403, none, none, "denied"⟩) (fun _ => ⟨204, none, none, ""⟩)
    (fun _ => ⟨403, none, none, "denied"⟩) "acme" "dave" "Weird"
    ⟨"dave", "OrgMember"⟩ [] "y" []
    (by decide) (by decide) (Or.inl rfl) (Or.inl rfl)
    ⟨by decide, by decide⟩ ⟨by decide, by decide⟩ (by decide)
  exact ⟨h.1, h.2.1.trans (by decide), h.2.2.2.2.1.trans (by decide),
    h.2.2.2.2.2.trans (by decide)⟩

/-- C8: an answer normalizing to `"q"` halts the per-user loop immediately:
the only event is the early stop at the current entry, so no remaining
entry is prompted for and no further remote call is issued. -/
theorem quit_halts_iteration (server : String → HttpResponse) (org : String)
    (u : OrgUser) (us : List OrgUser) (a : String) (rest : List String)
    (ha : pyLower (pyStrip a) = "q") :
    list_loop server org (u :: us) (a :: rest) =
      [ListEvent.stoppedEarly u.login] := by
  simp [list_loop, ha]

/-- Witness for C8: `" Q "` at the first of two entries leaves the second
entry untouched even though its answer line would have confirmed. -/
theorem quit_halts_witness :
    list_loop (fun _ => ⟨204, none, none, ""⟩) "acme"
        [⟨"erin", "OrgMember"⟩, ⟨"frank", "OutsideCollaborator"⟩]
        [" Q ", "y"] =
      [ListEvent.stoppedEarly "erin"] :=
  quit_halts_iteration (fun _ => ⟨204, none, none, ""⟩) "acme"
    ⟨"erin", "OrgMember"⟩ [⟨"frank", "OutsideCollaborator"⟩] " Q " ["y"]
    (by decide)

/-- C9: when the merged and filtered user list is empty, the driver prints
its message and returns with no per-user prompt and no remove call. -/
theorem empty_user_list_returns_without_loop
    (members outside : List String) (server : String → HttpResponse)
    (org : String) (answers : List String)
    (h : fetch_org_users_and_collaborators members outside = []) :
    list_main server org (fetch_org_users_and_collaborators members outside)
        answers = [ListEvent.msgNoUsers] := by
  rw [h]
  simp [list_main]

/-- Witness for C9: both fetched logins are in the exclusion set, so the
final list is empty and the driver stops at its message. -/
theorem empty_user_list_witness :
    fetch_org_users_and_collaborators ["rjackson-dev-ops"]
      ["stelligent-joao"] = [] ∧
    list_main (fun _ => ⟨204, none, none, ""⟩) "acme"
        (fetch_org_users_and_collaborators ["rjackson-dev-ops"]
          ["stelligent-joao"]) ["y"] =
      [ListEvent.msgNoUsers] :=
  ⟨by decide,
    empty_user_list_returns_without_loop ["rjackson-dev-ops"]
      ["stelligent-joao"] (fun _ => ⟨204, none, none, ""⟩) "acme" ["y"]
      (by decide)⟩

/-- C10: the add tool's login input is stripped, and compared lowercased
against `"q"` — so a whitespace-only line and any spelling that normalizes
to `"q"` terminate the loop, while `" alice "` is processed as the login
`"alice"`. -/
theorem login_input_normalization (server : String → HttpResponse)
    (s t c : String) (rest1 rest2 rest3 : List String)
    (hs : pyStrip s = "") (ht : pyLower (pyStrip t) = "q")
    (hc : pyLower (pyStrip c) = "y") :
    add_main server (s :: rest1) = [AddEvent.exited] ∧
    add_main server (t :: rest2) = [AddEvent.exited] ∧
    add_main server (" alice " :: c :: rest3) =
      AddEvent.apiCall "alice" (add_user_to_org (server "alice")) ::
        add_main server rest3 := by
  have h1 : pyStrip " alice " = "alice" := by decide
  have h2 : ("alice" : String) ≠ "" := by decide
  have h3 : pyLower "alice" ≠ "q" := by decide
  refine ⟨?_, ?_, ?_⟩
  · cases rest1 <;> simp [add_main, hs]
  · cases rest2 <;> simp [add_main, ht]
  · simp [add_main, h1, h2, h3, hc]

/-- Witness for C10: a whitespace-only line exits, `" Q "` exits, and
`" alice "` confirmed with `"y"` calls the API for login `"alice"`. -/
theorem login_input_witness :
    add_main (fun _ => ⟨200, none, none, ""⟩) ["   "] = [AddEvent.exited] ∧
    add_main (fun _ => ⟨200, none, none, ""⟩) [" Q ", "whatever"] =
      [AddEvent.exited] ∧
    add_main (fun _ => ⟨200, none, none, ""⟩) [" alice ", "y"] =
      [AddEvent.apiCall "alice" (AddOutcome.Success none none)] := by
  have h := login_input_normalization (fun _ => ⟨200, none, none, ""⟩)
    "   " " Q " "y" [] ["whatever"] [] (by decide) (by decide) (by decide)
  exact ⟨h.1, h.2.1, h.2.2.trans (by decide)⟩
